import Mathlib

/-!
Shallow embedding of the webrtc-datachannel-transport core:
the reference signaling channel (`DebugSignal`), the listener lifecycle
state machine and per-offer negotiation task (`listener.go`), and the
dialer negotiation flow (`dialer.go`).  Byte blobs are `List Nat`,
64-bit identifiers are `Nat` (no arithmetic is ever performed on them).
-/

namespace Transportc

/-! ## Reference signaling channel (`DebugSignal`, src/unnamed/part_000) -/

/-- Errors of the signaling layer, from the `var` block of part_000. -/
inductive SignalError where
  | offerNotReady
  | invalidOfferID
  | answerNotReady
deriving DecidableEq, Repr

/-- A pending offer: `type offer struct { id uint64; body []byte }`. -/
structure PendingOffer where
  id : Nat
  body : List Nat
deriving DecidableEq, Repr

/-- Association-list lookup modelling `ds.answers[offerID]` on the Go map. -/
def lookupAnswer : List (Nat × List Nat) → Nat → Option (List Nat)
  | [], _ => none
  | (k, v) :: rest, id => if k = id then some v else lookupAnswer rest id

/-- `delete(ds.answers, offerID)` on the Go map. -/
def eraseAnswer (m : List (Nat × List Nat)) (id : Nat) : List (Nat × List Nat) :=
  m.filter (fun kv => kv.1 != id)

/-- `DebugSignal`: a bounded FIFO channel of pending offers (head is the
oldest element, matching Go channel order) and an answer map. -/
structure DebugSignal where
  bufferSize : Nat
  offers : List PendingOffer
  answers : List (Nat × List Nat)
deriving DecidableEq, Repr

/-- `NewDebugSignal(bufferSize)`. -/
def NewDebugSignal (bufferSize : Nat) : DebugSignal :=
  { bufferSize := bufferSize, offers := [], answers := [] }

/-- `DebugSignal.Offer`: sends `{id, body}` on the buffered channel.  The Go
send blocks when the channel holds `bufferSize` elements; a blocked send is
modelled as `none`.  The random `id` (`rand.Uint64()`) is a parameter. -/
def DebugSignal.Offer (ds : DebugSignal) (id : Nat) (body : List Nat) :
    Option (Nat × DebugSignal) :=
  if ds.offers.length < ds.bufferSize then
    some (id, { ds with offers := ds.offers ++ [⟨id, body⟩] })
  else
    none

/-- `DebugSignal.ReadOffer`: returns `ErrOfferNotReady` when `len(ds.offers)`
is zero, otherwise receives the oldest queued offer. -/
def DebugSignal.ReadOffer (ds : DebugSignal) :
    Except SignalError ((Nat × List Nat) × DebugSignal) :=
  match ds.offers with
  | [] => .error .offerNotReady
  | o :: rest => .ok ((o.id, o.body), { ds with offers := rest })

/-- `DebugSignal.Answer`: rejects with `ErrInvalidOfferID` when the map
already holds an entry for `offerID`, otherwise stores the answer.  Map
insertion is modelled as a cons (the guard guarantees the key is fresh). -/
def DebugSignal.Answer (ds : DebugSignal) (offerID : Nat) (answer : List Nat) :
    Except SignalError DebugSignal :=
  match lookupAnswer ds.answers offerID with
  | some _ => .error .invalidOfferID
  | none => .ok { ds with answers := (offerID, answer) :: ds.answers }

/-- `DebugSignal.ReadAnswer`: one iteration of the polling loop.  When the
entry is present it is deleted and returned; when absent the Go code sleeps
and repolls, modelled as `none` (the call would block). -/
def DebugSignal.ReadAnswer (ds : DebugSignal) (offerID : Nat) :
    Option (List Nat × DebugSignal) :=
  match lookupAnswer ds.answers offerID with
  | none => none
  | some a => some (a, { ds with answers := eraseAnswer ds.answers offerID })

/-! ## Listener lifecycle state machine (src/listener.go) -/

/-- `ListenerRunningStatus` constants from listener.go. -/
inductive ListenerRunningStatus where
  | NEW
  | RUNNING
  | SUSPENDED
  | STOPPED
deriving DecidableEq, Repr

/-- Observable listener state: the atomic status word, the session registry
(`peerConnections` map, modelled by its key set as a list of ids), the ids of
sessions whose engine handle has been closed, the buffered `conns` delivery
queue, and whether the `abortAccept` channel has ever been signalled. -/
structure ListenerState where
  runningStatus : ListenerRunningStatus
  peerConnections : List Nat
  closedSessions : List Nat
  connsQueue : List Nat
  abortAcceptFired : Bool
deriving DecidableEq, Repr

/-- `Listener.Start`: CAS from NEW, SUSPENDED or STOPPED to RUNNING,
otherwise `errors.New("listener already started")`.  The pair is the state
of the receiver after the call (a failed CAS writes nothing) and the
returned error, if any. -/
def Listener.Start (l : ListenerState) : ListenerState × Option String :=
  match l.runningStatus with
  | .NEW | .SUSPENDED | .STOPPED => ({ l with runningStatus := .RUNNING }, none)
  | .RUNNING => (l, some "listener already started")

/-- `Listener.Stop`: CAS from RUNNING or SUSPENDED to STOPPED; closes every
registered session and clears the registry.  Faithful to the source: the
`abortAccept` channel is not written or closed anywhere in `Stop`. -/
def Listener.Stop (l : ListenerState) : ListenerState × Option String :=
  match l.runningStatus with
  | .RUNNING | .SUSPENDED =>
      ({ l with
          runningStatus := .STOPPED
          closedSessions := l.closedSessions ++ l.peerConnections
          peerConnections := [] }, none)
  | _ => (l, some "listener already stopped")

/-- `Listener.Suspend`: CAS from RUNNING to SUSPENDED, otherwise
`errors.New("listener not in running state")`. -/
def Listener.Suspend (l : ListenerState) : ListenerState × Option String :=
  match l.runningStatus with
  | .RUNNING => ({ l with runningStatus := .SUSPENDED }, none)
  | _ => (l, some "listener not in running state")

/-- Outcome of one `Accept()` call. -/
inductive AcceptResult where
  | conn (c : Nat)
  | stopped
  | blocked
deriving DecidableEq, Repr

/-- `Listener.Accept`: the `select` receives from `conns` when a connection
is queued; with the queue empty it returns the "listener stopped" error if
the `abortAccept` channel is ready, and otherwise blocks. -/
def Listener.Accept (l : ListenerState) : AcceptResult × ListenerState :=
  match l.connsQueue with
  | c :: rest => (.conn c, { l with connsQueue := rest })
  | [] => if l.abortAcceptFired then (.stopped, l) else (.blocked, l)

/-! ## Per-offer negotiation task (`Listener.nextPeerConnection`) -/

/-- Outcomes of the fallible external steps taken by one negotiation task,
in the order the source performs them. -/
structure NegotiationEnv where
  newPeerConnectionOk : Bool
  unmarshalOk : Bool
  setRemoteOk : Bool
  ctxExpiresFirst : Bool
  localAnswerOk : Bool
  marshalOk : Bool
  answerOk : Bool
deriving DecidableEq, Repr

/-- Result constructors mirror the `return err` sites of
`nextPeerConnection`, top to bottom. -/
inductive NegotiationOutcome where
  | ok
  | errNewPC
  | errUnmarshal
  | errSetRemote
  | errCtxDeadline
  | errLocalAnswer
  | errMarshal
  | errAnswer
deriving DecidableEq, Repr

/-- What one negotiation task leaves behind: its return value, the session
registry, and whether the task itself closed the session it created. -/
structure NegotiationResult where
  outcome : NegotiationOutcome
  registry : List Nat
  sessionClosed : Bool
deriving DecidableEq, Repr

/-- `Listener.nextPeerConnection`: creates a session, registers it under a
fresh `id`, installs observers, then runs unmarshal / SetRemoteDescription /
the answer-gathering wait raced against `ctx` / marshal / `Answer`.  Every
`return err` site after registration returns directly: none of them calls
`peerConnection.Close()` or `delete(l.peerConnections, id)` (only the
connectivity observers, which are not part of this task, do that). -/
def Listener.nextPeerConnection (env : NegotiationEnv) (id : Nat)
    (registry : List Nat) : NegotiationResult :=
  if !env.newPeerConnectionOk then ⟨.errNewPC, registry, false⟩
  else
    let registry' := registry ++ [id]
    if !env.unmarshalOk then ⟨.errUnmarshal, registry', false⟩
    else if !env.setRemoteOk then ⟨.errSetRemote, registry', false⟩
    else if env.ctxExpiresFirst then ⟨.errCtxDeadline, registry', false⟩
    else if !env.localAnswerOk then ⟨.errLocalAnswer, registry', false⟩
    else if !env.marshalOk then ⟨.errMarshal, registry', false⟩
    else if !env.answerOk then ⟨.errAnswer, registry', false⟩
    else ⟨.ok, registry', false⟩

/-! ## Dialer (src/dialer.go) -/

/-- `webrtc.PeerConnectionState` values relevant to the observers. -/
inductive PeerConnectionState where
  | new
  | connecting
  | connected
  | disconnected
  | failed
  | closed
deriving DecidableEq, Repr

/-- The dialer's single active-session slot (`d.peerConnection`, `none` is
Go `nil`) plus the ids of engine sessions that have been closed. -/
structure DialerSlot where
  peerConnection : Option Nat
  closedSessions : List Nat
deriving DecidableEq, Repr

/-- A dialer whose `NewPeerConnection` has never run: Go zero value,
`d.peerConnection == nil`. -/
def Dialer.init : DialerSlot :=
  { peerConnection := none, closedSessions := [] }

/-- The `OnConnectionStateChange` observer installed by
`Dialer.NewPeerConnection` on session `pc`: the body acts only when
`s == webrtc.PeerConnectionStateDisconnected`, closing the captured session
and setting `d.peerConnection = nil`; every other state is ignored. -/
def Dialer.onConnectionStateChange (d : DialerSlot) (pc : Nat)
    (s : PeerConnectionState) : DialerSlot :=
  if s = .disconnected then
    { d with peerConnection := none, closedSessions := d.closedSessions ++ [pc] }
  else d

/-- Outcome of `Dialer.Close`. -/
inductive CloseOutcome where
  | ok
  | nilDereference
deriving DecidableEq, Repr

/-- `Dialer.Close`: `return d.peerConnection.Close()` with no nil check; a
nil slot makes the method call fault. -/
def Dialer.Close (d : DialerSlot) : CloseOutcome :=
  match d.peerConnection with
  | none => .nilDereference
  | some _ => .ok

/-- Result of one `peerConnection.CreateDataChannel` call:
success, `webrtc.ErrConnectionClosed`, or any other error. -/
inductive CreateDCResult where
  | ok
  | errClosed
  | errOther
deriving DecidableEq, Repr, Fintype

/-- Outcomes of the external steps `Dialer.DialContext` performs, in source
order.  `newPC1Ok` is the session creation at line 64 (run only when no
session exists), `createDC1` the first `CreateDataChannel`, `newPC2Ok` the
replacement session creation at line 75, `createDC2Ok` the second
`CreateDataChannel`, then the channel-open wait raced against `ctx` and the
detach result. -/
structure DialEnv where
  ctxExpired : Bool
  hasSession : Bool
  newPC1Ok : Bool
  createDC1 : CreateDCResult
  newPC2Ok : Bool
  createDC2Ok : Bool
  ctxExpiresBeforeOpen : Bool
  detachOk : Bool
deriving DecidableEq, Repr

/-- The `return nil, err` sites of `DialContext`. -/
inductive DialFailure where
  | ctxExpired
  | newPCFailed
  | createDCFailed
  | detachFailed
deriving DecidableEq, Repr

/-- Final result of `DialContext`. -/
inductive DialOutcome where
  | ok
  | fail (e : DialFailure)
deriving DecidableEq, Repr

/-- Observable trace of one `DialContext` call: how many engine sessions
were created in total, how many of those on the `ErrConnectionClosed` retry
path, how many `CreateDataChannel` calls were made, and the result. -/
structure DialTrace where
  sessionCreations : Nat
  replacementCreations : Nat
  channelAttempts : Nat
  result : DialOutcome
deriving DecidableEq, Repr

/-- The wait on `detachChan` raced against `ctx` (lines 112–127). -/
def Dialer.awaitChannel (env : DialEnv) (s r a : Nat) : DialTrace :=
  if env.ctxExpiresBeforeOpen then ⟨s, r, a, .fail .ctxExpired⟩
  else if env.detachOk then ⟨s, r, a, .ok⟩
  else ⟨s, r, a, .fail .detachFailed⟩

/-- `Dialer.DialContext` (lines 54–128): fail fast on an expired context;
create a session if none exists; create the data channel; on
`ErrConnectionClosed` only, create exactly one replacement session and retry
channel creation exactly once; then wait for the channel to open. -/
def Dialer.DialContext (env : DialEnv) : DialTrace :=
  if env.ctxExpired then ⟨0, 0, 0, .fail .ctxExpired⟩
  else
    let initCreations := if env.hasSession then 0 else 1
    if !env.hasSession && !env.newPC1Ok then ⟨1, 0, 0, .fail .newPCFailed⟩
    else
      match env.createDC1 with
      | .ok => Dialer.awaitChannel env initCreations 0 1
      | .errOther => ⟨initCreations, 0, 1, .fail .createDCFailed⟩
      | .errClosed =>
          if !env.newPC2Ok then ⟨initCreations + 1, 1, 1, .fail .newPCFailed⟩
          else if !env.createDC2Ok then
            ⟨initCreations + 1, 1, 2, .fail .createDCFailed⟩
          else Dialer.awaitChannel env (initCreations + 1) 1 2

/-! ## Operation traces over the reference signaling channel -/

/-- One call against a `DebugSignal`, for stating history invariants. -/
inductive SigOp where
  | opOffer (id : Nat) (body : List Nat)
  | opReadOffer
  | opAnswer (id : Nat) (body : List Nat)
  | opReadAnswer (id : Nat)
deriving DecidableEq, Repr

/-- Run a sequence of calls, collecting the ids successfully consumed by
`ReadAnswer` (a blocked or failed call leaves the state unchanged). -/
def runTrace (ds : DebugSignal) : List SigOp → DebugSignal × List Nat
  | [] => (ds, [])
  | op :: rest =>
    match op with
    | .opOffer id body =>
        match ds.Offer id body with
        | some (_, ds') => runTrace ds' rest
        | none => runTrace ds rest
    | .opReadOffer =>
        match ds.ReadOffer with
        | .ok (_, ds') => runTrace ds' rest
        | .error _ => runTrace ds rest
    | .opAnswer id body =>
        match ds.Answer id body with
        | .ok ds' => runTrace ds' rest
        | .error _ => runTrace ds rest
    | .opReadAnswer id =>
        match ds.ReadAnswer id with
        | some (_, ds') =>
            let res := runTrace ds' rest
            (res.1, id :: res.2)
        | none => runTrace ds rest

/-- Number of `Answer` calls for `id` in a trace (attempted writes). -/
def countAnswerOps (id : Nat) : List SigOp → Nat
  | [] => 0
  | .opAnswer id' _ :: rest =>
      (if id' = id then 1 else 0) + countAnswerOps id rest
  | _ :: rest => countAnswerOps id rest

/-- 1 when the answer map currently holds an entry for `id`, else 0. -/
def presentBit (ds : DebugSignal) (id : Nat) : Nat :=
  match lookupAnswer ds.answers id with
  | none => 0
  | some _ => 1

/-- Occurrences of `id` in a list of consumed ids. -/
def countId (id : Nat) : List Nat → Nat
  | [] => 0
  | x :: rest => (if x = id then 1 else 0) + countId id rest

/-! ## Helper lemmas -/

theorem lookupAnswer_erase_self (m : List (Nat × List Nat)) (id : Nat) :
    lookupAnswer (eraseAnswer m id) id = none := by
  induction m with
  | nil => rfl
  | cons kv rest ih =>
      rcases kv with ⟨k, v⟩
      by_cases h : k = id
      · simpa [eraseAnswer, List.filter_cons, h] using ih
      · simpa [eraseAnswer, List.filter_cons, h, lookupAnswer] using ih

theorem lookupAnswer_erase_ne (m : List (Nat × List Nat)) (id id' : Nat)
    (h : id' ≠ id) :
    lookupAnswer (eraseAnswer m id') id = lookupAnswer m id := by
  induction m with
  | nil => rfl
  | cons kv rest ih =>
      rcases kv with ⟨k, v⟩
      by_cases hk : k = id'
      · subst hk
        simpa [eraseAnswer, List.filter_cons, lookupAnswer, h, Ne.symm h] using ih
      · have hcons : eraseAnswer ((k, v) :: rest) id' = (k, v) :: eraseAnswer rest id' := by
          simp [eraseAnswer, List.filter_cons, hk]
        rw [hcons]
        simp [lookupAnswer, ih]

theorem Offer_answers (ds : DebugSignal) (oid : Nat) (body : List Nat)
    (i : Nat) (ds' : DebugSignal) (h : ds.Offer oid body = some (i, ds')) :
    ds'.answers = ds.answers := by
  unfold DebugSignal.Offer at h
  split at h
  · rw [Option.some.injEq, Prod.mk.injEq] at h
    obtain ⟨-, h2⟩ := h
    subst h2
    rfl
  · cases h

theorem ReadOffer_answers (ds : DebugSignal) (p : Nat × List Nat)
    (ds' : DebugSignal) (h : ds.ReadOffer = .ok (p, ds')) :
    ds'.answers = ds.answers := by
  unfold DebugSignal.ReadOffer at h
  split at h
  · cases h
  · rw [Except.ok.injEq, Prod.mk.injEq] at h
    obtain ⟨-, h2⟩ := h
    subst h2
    rfl

theorem Answer_ok (ds : DebugSignal) (oid : Nat) (body : List Nat)
    (ds' : DebugSignal) (h : ds.Answer oid body = .ok ds') :
    lookupAnswer ds.answers oid = none ∧
    ds' = { ds with answers := (oid, body) :: ds.answers } := by
  rcases hl : lookupAnswer ds.answers oid with _ | v
  · unfold DebugSignal.Answer at h
    simp only [hl] at h
    rw [Except.ok.injEq] at h
    exact ⟨rfl, h.symm⟩
  · unfold DebugSignal.Answer at h
    simp only [hl] at h
    cases h

theorem ReadAnswer_some (ds : DebugSignal) (oid : Nat) (a : List Nat)
    (ds' : DebugSignal) (h : ds.ReadAnswer oid = some (a, ds')) :
    lookupAnswer ds.answers oid = some a ∧
    ds' = { ds with answers := eraseAnswer ds.answers oid } := by
  rcases hl : lookupAnswer ds.answers oid with _ | v
  · unfold DebugSignal.ReadAnswer at h
    simp only [hl] at h
    cases h
  · unfold DebugSignal.ReadAnswer at h
    simp only [hl] at h
    rw [Option.some.injEq, Prod.mk.injEq] at h
    obtain ⟨h1, h2⟩ := h
    subst h1
    exact ⟨rfl, h2.symm⟩

/-- Core history invariant: along any call sequence, the number of answers
consumed for `id` plus the bit for a currently stored answer never exceeds
the number of `Answer(id, ·)` calls plus the initially stored bit. -/
theorem runTrace_consumed_bound (id : Nat) (tr : List SigOp) :
    ∀ ds : DebugSignal,
      countId id (runTrace ds tr).2 + presentBit (runTrace ds tr).1 id ≤
        countAnswerOps id tr + presentBit ds id := by
  induction tr with
  | nil =>
      intro ds
      simp [runTrace, countId, countAnswerOps]
  | cons op rest ih =>
      intro ds
      cases op with
      | opOffer oid body =>
          rcases hof : ds.Offer oid body with _ | ⟨i, ds'⟩
          · simp only [runTrace, hof, countAnswerOps]
            exact ih ds
          · have hans := Offer_answers ds oid body i ds' hof
            have hp : presentBit ds' id = presentBit ds id := by
              simp [presentBit, hans]
            simp only [runTrace, hof, countAnswerOps]
            have hb := ih ds'
            omega
      | opReadOffer =>
          rcases hro : ds.ReadOffer with _ | ⟨p, ds'⟩
          · simp only [runTrace, hro, countAnswerOps]
            exact ih ds
          · have hans := ReadOffer_answers ds p ds' hro
            have hp : presentBit ds' id = presentBit ds id := by
              simp [presentBit, hans]
            simp only [runTrace, hro, countAnswerOps]
            have hb := ih ds'
            omega
      | opAnswer oid body =>
          rcases ha : ds.Answer oid body with _ | ds'
          · simp only [runTrace, ha, countAnswerOps]
            have hb := ih ds
            split <;> omega
          · obtain ⟨hnone, h2⟩ := Answer_ok ds oid body ds' ha
            subst h2
            simp only [runTrace, ha, countAnswerOps]
            have hb := ih { ds with answers := (oid, body) :: ds.answers }
            by_cases hid : oid = id
            · subst hid
              have hp0 : presentBit ds oid = 0 := by
                simp [presentBit, hnone]
              have hp1 :
                  presentBit { ds with answers := (oid, body) :: ds.answers } oid = 1 := by
                simp [presentBit, lookupAnswer]
              simp only [eq_self_iff_true, if_true]
              omega
            · have hp :
                  presentBit { ds with answers := (oid, body) :: ds.answers } id =
                    presentBit ds id := by
                simp [presentBit, lookupAnswer, hid]
              simp only [if_neg hid]
              omega
      | opReadAnswer oid =>
          rcases hra : ds.ReadAnswer oid with _ | ⟨a, ds'⟩
          · simp only [runTrace, hra, countAnswerOps]
            exact ih ds
          · obtain ⟨hsome, h2⟩ := ReadAnswer_some ds oid a ds' hra
            subst h2
            simp only [runTrace, hra, countAnswerOps, countId]
            have hb := ih { ds with answers := eraseAnswer ds.answers oid }
            by_cases hid : oid = id
            · subst hid
              have hp1 : presentBit ds oid = 1 := by
                simp [presentBit, hsome]
              have hp0 :
                  presentBit { ds with answers := eraseAnswer ds.answers oid } oid = 0 := by
                simp [presentBit, lookupAnswer_erase_self]
              simp only [eq_self_iff_true, if_true]
              omega
            · have hp :
                  presentBit { ds with answers := eraseAnswer ds.answers oid } id =
                    presentBit ds id := by
                simp [presentBit, lookupAnswer_erase_ne ds.answers id oid hid]
              simp only [if_neg hid]
              omega

/-! ## Claim theorems -/

/-- C1: the claim says a successful `Stop()` fires the stop-abort signal so
a blocked `Accept()` returns the "listener stopped" error.  Evaluating the
code at the failing input: `Stop` on a RUNNING listener succeeds (closing
and evicting both registered sessions) yet leaves `abortAccept` unsignalled,
so a subsequent `Accept` on the empty delivery queue blocks instead of
returning the error. -/
theorem stop_leaves_accept_blocked :
    Listener.Stop
      { runningStatus := .RUNNING, peerConnections := [1, 2],
        closedSessions := [], connsQueue := [], abortAcceptFired := false } =
      ({ runningStatus := .STOPPED, peerConnections := [],
         closedSessions := [1, 2], connsQueue := [],
         abortAcceptFired := false }, none) ∧
    Listener.Accept
      { runningStatus := .STOPPED, peerConnections := [],
        closedSessions := [1, 2], connsQueue := [],
        abortAcceptFired := false } =
      (.blocked,
       { runningStatus := .STOPPED, peerConnections := [],
         closedSessions := [1, 2], connsQueue := [],
         abortAcceptFired := false }) := by
  exact ⟨rfl, rfl⟩

/-- C2: the claim says every negotiation-task failure path closes the
session and removes its registry entry.  Evaluating the code at the failing
input (context expires before gathering completes, all other steps fine):
the task returns the deadline error, the registry still holds the entry
registered under id 7, and the task never closed the session. -/
theorem negotiation_ctx_expiry_orphans_registry :
    Listener.nextPeerConnection
      { newPeerConnectionOk := true, unmarshalOk := true, setRemoteOk := true,
        ctxExpiresFirst := true, localAnswerOk := true, marshalOk := true,
        answerOk := true } 7 [] =
      { outcome := .errCtxDeadline, registry := [7], sessionClosed := false } := by
  rfl

/-- C3: `Answer(id, a)` on a channel with no stored answer for `id`
succeeds; a second `Answer(id, b)` returns the InvalidOfferID error and the
stored answer for `id` remains `a`. -/
theorem answer_at_most_once (ds : DebugSignal) (id : Nat) (a b : List Nat)
    (h : lookupAnswer ds.answers id = none) :
    ds.Answer id a = .ok { ds with answers := (id, a) :: ds.answers } ∧
    DebugSignal.Answer { ds with answers := (id, a) :: ds.answers } id b =
      .error .invalidOfferID ∧
    lookupAnswer ((id, a) :: ds.answers) id = some a := by
  refine ⟨?_, ?_, ?_⟩
  · unfold DebugSignal.Answer
    simp only [h]
  · unfold DebugSignal.Answer
    simp [lookupAnswer]
  · simp [lookupAnswer]

/-- Witness for C3 at a concrete channel. -/
theorem answer_at_most_once_witness :
    DebugSignal.Answer ⟨1, [], []⟩ 5 [1] = .ok ⟨1, [], [(5, [1])]⟩ ∧
    DebugSignal.Answer ⟨1, [], [(5, [1])]⟩ 5 [2] = .error .invalidOfferID ∧
    lookupAnswer [(5, [1])] 5 = some [1] :=
  answer_at_most_once ⟨1, [], []⟩ 5 [1] [2] rfl

/-- C4: the lifecycle operations realize exactly the stated transition
table: `Start` succeeds precisely from NEW, SUSPENDED or STOPPED and moves
to RUNNING; `Suspend` succeeds precisely from RUNNING; `Stop` succeeds
precisely from RUNNING or SUSPENDED (closing and evicting all sessions);
every other call returns an explicit error and leaves the state unchanged. -/
theorem listener_transition_table (l : ListenerState) :
    Listener.Start { l with runningStatus := .NEW } =
      ({ l with runningStatus := .RUNNING }, none) ∧
    Listener.Start { l with runningStatus := .SUSPENDED } =
      ({ l with runningStatus := .RUNNING }, none) ∧
    Listener.Start { l with runningStatus := .STOPPED } =
      ({ l with runningStatus := .RUNNING }, none) ∧
    Listener.Start { l with runningStatus := .RUNNING } =
      ({ l with runningStatus := .RUNNING }, some "listener already started") ∧
    Listener.Suspend { l with runningStatus := .RUNNING } =
      ({ l with runningStatus := .SUSPENDED }, none) ∧
    Listener.Suspend { l with runningStatus := .NEW } =
      ({ l with runningStatus := .NEW }, some "listener not in running state") ∧
    Listener.Suspend { l with runningStatus := .SUSPENDED } =
      ({ l with runningStatus := .SUSPENDED },
       some "listener not in running state") ∧
    Listener.Suspend { l with runningStatus := .STOPPED } =
      ({ l with runningStatus := .STOPPED },
       some "listener not in running state") ∧
    Listener.Stop { l with runningStatus := .RUNNING } =
      ({ l with
          runningStatus := .STOPPED
          closedSessions := l.closedSessions ++ l.peerConnections
          peerConnections := [] }, none) ∧
    Listener.Stop { l with runningStatus := .SUSPENDED } =
      ({ l with
          runningStatus := .STOPPED
          closedSessions := l.closedSessions ++ l.peerConnections
          peerConnections := [] }, none) ∧
    Listener.Stop { l with runningStatus := .NEW } =
      ({ l with runningStatus := .NEW }, some "listener already stopped") ∧
    Listener.Stop { l with runningStatus := .STOPPED } =
      ({ l with runningStatus := .STOPPED }, some "listener already stopped") := by
  refine ⟨rfl, rfl, rfl, rfl, rfl, rfl, rfl, rfl, rfl, rfl, rfl, rfl⟩

/-- C5: in `DialContext`, an `ErrConnectionClosed` from channel creation
triggers exactly one replacement session and exactly one retry; a failure
of the replacement creation or of the retry is returned with no further
attempts; any other channel-creation error is returned immediately with no
replacement session. -/
theorem dial_retry_exactly_once (env : DialEnv)
    (hctx : env.ctxExpired = false)
    (hses : (env.hasSession || env.newPC1Ok) = true) :
    (env.createDC1 = .errClosed →
        (Dialer.DialContext env).replacementCreations = 1 ∧
        (Dialer.DialContext env).channelAttempts ≤ 2) ∧
    (env.createDC1 = .errClosed → env.newPC2Ok = false →
        (Dialer.DialContext env).result = .fail .newPCFailed ∧
        (Dialer.DialContext env).channelAttempts = 1) ∧
    (env.createDC1 = .errClosed → env.newPC2Ok = true → env.createDC2Ok = false →
        (Dialer.DialContext env).result = .fail .createDCFailed ∧
        (Dialer.DialContext env).channelAttempts = 2) ∧
    (env.createDC1 = .errOther →
        (Dialer.DialContext env).replacementCreations = 0 ∧
        (Dialer.DialContext env).result = .fail .createDCFailed ∧
        (Dialer.DialContext env).channelAttempts = 1) ∧
    (Dialer.DialContext env).replacementCreations ≤ 1 ∧
    (Dialer.DialContext env).channelAttempts ≤ 2 := by
  obtain ⟨c, hs, n1, dc1, n2, dc2, cw, dk⟩ := env
  revert hctx hses
  rcases c <;> rcases hs <;> rcases n1 <;> rcases dc1 <;> rcases n2 <;>
    rcases dc2 <;> rcases cw <;> rcases dk <;> decide

/-- Witness for C5: session exists, first creation fails with
`ErrConnectionClosed`, the single retry fails — the second failure is
returned after exactly two channel attempts. -/
theorem dial_retry_exactly_once_witness :
    (Dialer.DialContext
        ⟨false, true, true, .errClosed, true, false, false, true⟩).result =
      .fail .createDCFailed ∧
    (Dialer.DialContext
        ⟨false, true, true, .errClosed, true, false, false, true⟩).channelAttempts = 2 :=
  (dial_retry_exactly_once
      ⟨false, true, true, .errClosed, true, false, false, true⟩
      rfl rfl).2.2.1 rfl rfl rfl

/-- C6 counterexample: the claim says the dialer's connectivity observer
closes the session and clears the slot for each of failed, closed and
disconnected.  At the concrete inputs `failed` and `closed` the installed
handler returns the dialer state unchanged: the active-session slot still
holds session 1 and nothing was closed. -/
theorem dialer_observer_ignores_failed_closed :
    Dialer.onConnectionStateChange ⟨some 1, []⟩ 1 .failed = ⟨some 1, []⟩ ∧
    Dialer.onConnectionStateChange ⟨some 1, []⟩ 1 .closed = ⟨some 1, []⟩ := by
  exact ⟨rfl, rfl⟩

/-- C6 amended: the observer installed by the dialer's `NewPeerConnection`
closes the session and clears the active-session slot only on the
`disconnected` transition; on `failed` and `closed` it leaves the dialer
state unchanged. -/
theorem dialer_observer_disconnected_only (d : DialerSlot) (pc : Nat) :
    Dialer.onConnectionStateChange d pc .disconnected =
      { d with peerConnection := none,
               closedSessions := d.closedSessions ++ [pc] } ∧
    Dialer.onConnectionStateChange d pc .failed = d ∧
    Dialer.onConnectionStateChange d pc .closed = d := by
  exact ⟨rfl, rfl, rfl⟩

/-- C7: round trip over the reference channel — an offer published via
`Offer` is retrieved unmodified by `ReadOffer`; an answer published via
`Answer` under the returned identifier is retrieved unmodified by
`ReadAnswer`. -/
theorem signal_round_trip (n id : Nat) (o a : List Nat) (h : 1 ≤ n) :
    DebugSignal.Offer (NewDebugSignal n) id o = some (id, ⟨n, [⟨id, o⟩], []⟩) ∧
    DebugSignal.ReadOffer ⟨n, [⟨id, o⟩], []⟩ = .ok ((id, o), ⟨n, [], []⟩) ∧
    DebugSignal.Answer ⟨n, [], []⟩ id a = .ok ⟨n, [], [(id, a)]⟩ ∧
    DebugSignal.ReadAnswer ⟨n, [], [(id, a)]⟩ id = some (a, ⟨n, [], []⟩) := by
  refine ⟨?_, rfl, rfl, ?_⟩
  · have hn : (NewDebugSignal n).offers.length < (NewDebugSignal n).bufferSize := by
      simpa [NewDebugSignal] using h
    simp [DebugSignal.Offer, hn, NewDebugSignal]
    omega
  · simp [DebugSignal.ReadAnswer, lookupAnswer, eraseAnswer]

/-- Witness for C7 at a concrete channel of capacity 1. -/
theorem signal_round_trip_witness :
    DebugSignal.Offer (NewDebugSignal 1) 0 [3] = some (0, ⟨1, [⟨0, [3]⟩], []⟩) ∧
    DebugSignal.ReadOffer ⟨1, [⟨0, [3]⟩], []⟩ = .ok ((0, [3]), ⟨1, [], []⟩) ∧
    DebugSignal.Answer ⟨1, [], []⟩ 0 [4] = .ok ⟨1, [], [(0, [4])]⟩ ∧
    DebugSignal.ReadAnswer ⟨1, [], [(0, [4])]⟩ 0 = some ([4], ⟨1, [], []⟩) :=
  signal_round_trip 1 0 [3] [4] (by decide)

/-- C8: `ReadAnswer` deletes the record before returning it — after a
successful read the identifier is absent and a repeated read finds no
record (it would block again); and along any call history from a fresh
channel in which `Answer` is called at most once for `id`, an `id` still
present in the answer map was never successfully read. -/
theorem readAnswer_consumed_once
    (ds : DebugSignal) (oid : Nat) (a : List Nat) (ds' : DebugSignal)
    (h : ds.ReadAnswer oid = some (a, ds'))
    (n id : Nat) (tr : List SigOp)
    (hone : countAnswerOps id tr ≤ 1)
    (hpres : presentBit (runTrace (NewDebugSignal n) tr).1 id = 1) :
    lookupAnswer ds'.answers oid = none ∧
    ds'.ReadAnswer oid = none ∧
    countId id (runTrace (NewDebugSignal n) tr).2 = 0 := by
  obtain ⟨hsome, h2⟩ := ReadAnswer_some ds oid a ds' h
  subst h2
  have habs : lookupAnswer (eraseAnswer ds.answers oid) oid = none :=
    lookupAnswer_erase_self ds.answers oid
  refine ⟨habs, ?_, ?_⟩
  · unfold DebugSignal.ReadAnswer
    simp only [habs]
  · have hb := runTrace_consumed_bound id tr (NewDebugSignal n)
    have h0 : presentBit (NewDebugSignal n) id = 0 := rfl
    omega

/-- Witness for C8: answering then reading id 5 on a concrete channel. -/
theorem readAnswer_consumed_once_witness :
    lookupAnswer (DebugSignal.mk 1 [] []).answers 5 = none ∧
    DebugSignal.ReadAnswer ⟨1, [], []⟩ 5 = none ∧
    countId 5 (runTrace (NewDebugSignal 1) [.opAnswer 5 [7]]).2 = 0 :=
  readAnswer_consumed_once ⟨1, [], [(5, [7])]⟩ 5 [7] ⟨1, [], []⟩ (by decide)
    1 5 [.opAnswer 5 [7]] (by decide) (by decide)

/-- C9: `ReadOffer` never blocks — an empty queue yields the OfferNotReady
error immediately — and queued offers come back in FIFO order: with
capacity 2, `Offer(A)` then `Offer(B)` succeed without blocking, `ReadOffer`
yields A then B, and a third `ReadOffer` returns OfferNotReady. -/
theorem readOffer_nonblocking_fifo (idA idB : Nat) (A B : List Nat)
    (ds : DebugSignal) (hds : ds.offers = []) :
    ds.ReadOffer = .error .offerNotReady ∧
    DebugSignal.Offer (NewDebugSignal 2) idA A = some (idA, ⟨2, [⟨idA, A⟩], []⟩) ∧
    DebugSignal.Offer ⟨2, [⟨idA, A⟩], []⟩ idB B =
      some (idB, ⟨2, [⟨idA, A⟩, ⟨idB, B⟩], []⟩) ∧
    DebugSignal.ReadOffer ⟨2, [⟨idA, A⟩, ⟨idB, B⟩], []⟩ =
      .ok ((idA, A), ⟨2, [⟨idB, B⟩], []⟩) ∧
    DebugSignal.ReadOffer ⟨2, [⟨idB, B⟩], []⟩ = .ok ((idB, B), ⟨2, [], []⟩) ∧
    DebugSignal.ReadOffer ⟨2, [], []⟩ = .error .offerNotReady := by
  refine ⟨?_, ?_, ?_, rfl, rfl, rfl⟩
  · unfold DebugSignal.ReadOffer
    simp only [hds]
  · simp [DebugSignal.Offer, NewDebugSignal]
  · simp [DebugSignal.Offer]

/-- Witness for C9 at concrete offers. -/
theorem readOffer_nonblocking_fifo_witness :
    DebugSignal.ReadOffer ⟨0, [], []⟩ = .error .offerNotReady ∧
    DebugSignal.Offer (NewDebugSignal 2) 1 [5] = some (1, ⟨2, [⟨1, [5]⟩], []⟩) ∧
    DebugSignal.Offer ⟨2, [⟨1, [5]⟩], []⟩ 2 [6] =
      some (2, ⟨2, [⟨1, [5]⟩, ⟨2, [6]⟩], []⟩) ∧
    DebugSignal.ReadOffer ⟨2, [⟨1, [5]⟩, ⟨2, [6]⟩], []⟩ =
      .ok ((1, [5]), ⟨2, [⟨2, [6]⟩], []⟩) ∧
    DebugSignal.ReadOffer ⟨2, [⟨2, [6]⟩], []⟩ = .ok ((2, [6]), ⟨2, [], []⟩) ∧
    DebugSignal.ReadOffer ⟨2, [], []⟩ = .error .offerNotReady :=
  readOffer_nonblocking_fifo 1 2 [5] [6] ⟨0, [], []⟩ rfl

/-- C10: `Dialer.Close` dereferences the session slot with no nil check: on
a dialer whose session was never created, on any dialer whose slot is nil,
and right after the connectivity observer cleared the slot on a
`disconnected` transition, the call faults instead of returning an error or
succeeding as a no-op. -/
theorem close_nil_dereference (d d' : DialerSlot) (pc : Nat)
    (h : d.peerConnection = none) :
    Dialer.Close Dialer.init = .nilDereference ∧
    Dialer.Close d = .nilDereference ∧
    Dialer.Close (Dialer.onConnectionStateChange d' pc .disconnected) =
      .nilDereference := by
  refine ⟨rfl, ?_, rfl⟩
  unfold Dialer.Close
  simp only [h]

/-- Witness for C10 at concrete dialer states. -/
theorem close_nil_dereference_witness :
    Dialer.Close Dialer.init = .nilDereference ∧
    Dialer.Close ⟨none, [17]⟩ = .nilDereference ∧
    Dialer.Close (Dialer.onConnectionStateChange ⟨some 3, []⟩ 3 .disconnected) =
      .nilDereference :=
  close_nil_dereference ⟨none, [17]⟩ ⟨some 3, []⟩ 3 rfl

end Transportc
